import Mathlib

/-!
Verification of the Operation Orchestration Engine of the pos_admin_tool
repository against its natural-language specification.

The definitions below are a shallow embedding of the Python sources.  The
active modules are `app/logic.py`, `app/ui.py` and `app/models/operation.py`
(the directories `app/logic/` and `app/ui/` carry no `__init__.py`, so the
plain modules shadow them on import); where a legacy variant matters it is
modelled separately and said so.  Timestamps are modelled as integers
(`datetime.now()` readings passed in explicitly), external processes and the
filesystem as explicit environment records.
-/

/-! ## Data model: `app/models/operation.py` -/

/-- `OperationStatus` enum (operation.py lines 11-19). -/
inductive OperationStatus where
  | pending
  | running
  | success
  | partialSuccess
  | failed
  | cancelled
deriving DecidableEq, Repr

/-- `ResourceType` enum (operation.py lines 22-30). -/
inductive ResourceType where
  | service
  | database
  | folder
  | file
  | registry_key
  | process
deriving DecidableEq, Repr

/-- `Resource` dataclass (operation.py lines 33-40): one externally mutated
entity.  The free-form `additional_info` dict is modelled as an association
list of strings (the Python values are rendered with `str`). -/
structure Resource where
  type : ResourceType
  name : String
  path : Option String := none
  additional_info : List (String × String) := []
deriving DecidableEq, Repr

/-- Python `str(bool)` rendering used for `additional_info` values. -/
def pyBool (b : Bool) : String := if b then "True" else "False"

/-- `OperationResult` dataclass (operation.py lines 43-68).  `datetime`
fields are modelled as integer timestamps and `duration_seconds` as their
integer difference (the Python `total_seconds()` of the difference). -/
structure OperationResult where
  operation : String
  status : OperationStatus
  start_time : Int
  end_time : Option Int := none
  success : Bool := false
  partial_success_flag : Bool := false
  messages : List String := []
  errors : List String := []
  warnings : List String := []
  affected_resources : List Resource := []
  duration_seconds : Option Int := none
  context : List (String × String) := []
deriving DecidableEq, Repr

/-- `OperationResult.create` (operation.py lines 129-136): a fresh result in
status PENDING whose `start_time` is the current clock reading. -/
def OperationResult.create (operation : String) (now : Int) : OperationResult :=
  { operation := operation, status := .pending, start_time := now }

/-- `OperationResult.add_message` (operation.py lines 75-77). -/
def OperationResult.add_message (r : OperationResult) (message : String) : OperationResult :=
  { r with messages := r.messages ++ [message] }

/-- `OperationResult.add_error` (operation.py lines 79-82): appends the error
and clears the `success` flag. -/
def OperationResult.add_error (r : OperationResult) (error : String) : OperationResult :=
  { r with errors := r.errors ++ [error], success := false }

/-- `OperationResult.add_warning` (operation.py lines 84-86). -/
def OperationResult.add_warning (r : OperationResult) (warning : String) : OperationResult :=
  { r with warnings := r.warnings ++ [warning] }

/-- `OperationResult.add_resource` (operation.py lines 88-90). -/
def OperationResult.add_resource (r : OperationResult) (res : Resource) : OperationResult :=
  { r with affected_resources := r.affected_resources ++ [res] }

/-- `OperationResult.finalize` (operation.py lines 92-109): stamps the end
time, stores exactly the status passed by the caller, derives the two
boolean flags from that status, and recomputes `duration = end - start`
(the `__post_init__` call on line 109). -/
def OperationResult.finalize (r : OperationResult) (status : OperationStatus) (now : Int) :
    OperationResult :=
  let r := { r with end_time := some now, status := status }
  let r :=
    if status = .success then
      { r with success := true, partial_success_flag := false }
    else if status = .partialSuccess then
      { r with success := false, partial_success_flag := true }
    else
      { r with success := false, partial_success_flag := false }
  { r with duration_seconds := some (now - r.start_time) }

/-- `OperationResult.is_complete` (operation.py lines 138-145): membership of
the status in the four terminal statuses. -/
def OperationResult.is_complete (r : OperationResult) : Bool :=
  [OperationStatus.success, OperationStatus.partialSuccess,
   OperationStatus.failed, OperationStatus.cancelled].contains r.status

/-- The terminal statuses of the spec state machine
(PENDING→RUNNING→{SUCCESS, PARTIAL_SUCCESS, FAILED, CANCELLED}). -/
def isTerminal (s : OperationStatus) : Prop :=
  s = .success ∨ s = .partialSuccess ∨ s = .failed ∨ s = .cancelled

instance (s : OperationStatus) : Decidable (isTerminal s) := by
  unfold isTerminal; infer_instance

/-- One mutation call on a result, as quantified over by the spec sentence
about sequences of add-message/warning/error calls. -/
inductive MutCall where
  | msg (s : String)
  | warn (s : String)
  | err (s : String)

/-- Apply one mutation call. -/
def applyCall (r : OperationResult) : MutCall → OperationResult
  | .msg s => r.add_message s
  | .warn s => r.add_warning s
  | .err s => r.add_error s

/-- Apply a sequence of mutation calls in order. -/
def applyCalls (r : OperationResult) (ops : List MutCall) : OperationResult :=
  ops.foldl applyCall r

/-! ## String helpers shared by the embedding

Python string operations used by the sources, modelled on `List Char`. -/

/-- The single-quote character, kept out of string literals. -/
def sqChar : Char := Char.ofNat 39

/-- The single-quote as a one-character string. -/
def sqStr : String := String.singleton sqChar

/-- Python `\s` / `str.strip` whitespace class (ASCII part). -/
def isWsChar (c : Char) : Bool :=
  c = ' ' || c = '\t' || c = '\n' || c = '\x0d' || c = '\x0b' || c = '\x0c'

/-- Python `str.strip()`: drop leading and trailing whitespace. -/
def pyStrip (s : String) : String :=
  String.mk (((s.data.dropWhile isWsChar).reverse.dropWhile isWsChar).reverse)

/-- Does `l` start with `pat`? -/
def listStartsWith : List Char → List Char → Bool
  | _, [] => true
  | [], _ :: _ => false
  | c :: cs, d :: ds => c = d && listStartsWith cs ds

/-- Does `l` contain `pat` as a contiguous sublist?  Models the Python
substring test `pat in l`. -/
def containsSub : List Char → List Char → Bool
  | [], pat => pat.isEmpty
  | c :: cs, pat => listStartsWith (c :: cs) pat || containsSub cs pat

/-- Python `needle in haystack` on strings. -/
def pyIn (needle haystack : String) : Bool :=
  containsSub haystack.data needle.data

/-- Python `str.replace(pat, rep)` for a nonempty `pat`: replace
non-overlapping occurrences left to right.  (The sources only call it with
nonempty patterns; for an empty pattern this model returns the input.) -/
def replaceList (s pat rep : List Char) : List Char :=
  match s with
  | [] => []
  | c :: rest =>
    if h : pat ≠ [] ∧ listStartsWith (c :: rest) pat then
      rep ++ replaceList ((c :: rest).drop pat.length) pat rep
    else
      c :: replaceList rest pat rep
termination_by s.length
decreasing_by
  · simp only [List.length_drop, List.length_cons]
    have hp : 1 ≤ pat.length := by
      cases pat with
      | nil => exact absurd rfl h.1
      | cons p ps => simp
    omega
  · simp

/-- Python `str.replace` on strings (nonempty pattern). -/
def pyReplace (s pat rep : String) : String :=
  String.mk (replaceList s.data pat.data rep.data)

/-- Count occurrences of the single-quote character in a string. -/
def countQuotes (s : String) : Nat := s.data.count sqChar

/-! ## CommandExecutor: `BatchRunner.run_command` (logic.py lines 46-93)

The `subprocess.run` call is modelled by an explicit outcome; `run_command`
maps it to the returned `(returncode, stdout, stderr)` triple.  Totality of
the Lean function models the fact that the Python wrapper catches
`TimeoutExpired` and every other exception instead of raising.  The log
redaction on lines 54-82 only affects the logged text, not the returned
triple. -/

/-- Outcome of the external process spawn/wait. -/
inductive ProcOutcome where
  | completed (returncode : Int) (stdout stderr : String)
  | timedOut (detail : String)
  | spawnFailed (exc : String)

/-- Synthetic stderr for a timeout (logic.py line 87). -/
def timeoutMsg (timeout : Nat) (detail : String) : String :=
  "Command timed out after " ++ toString timeout ++ "s: " ++ detail

/-- Synthetic stderr for a spawn failure or other exception (logic.py
line 91). -/
def spawnFailMsg (exc : String) : String :=
  "Command execution failed: " ++ exc

/-- `BatchRunner.run_command` (logic.py lines 46-93; identical in
batch_runner.py lines 46-92 except for `creationflags`). -/
def run_command (outcome : ProcOutcome) (timeout : Nat) : Int × String × String :=
  match outcome with
  | .completed code out err => (code, out, err)
  | .timedOut detail => (1, "", timeoutMsg timeout detail)
  | .spawnFailed exc => (1, "", spawnFailMsg exc)

/-! ## Log redaction: `BatchRunner._mask_sensitive_data`
(logic.py lines 95-112, identical in batch_runner.py lines 94-111). -/

/-- The `re.sub(r"(-P\s+)([^\s]+)", r"\1***", text)` pass of
`_mask_sensitive_data` (logic.py line 110): every literal `-P` followed by
at least one whitespace character and then a nonempty non-whitespace token
keeps the `-P` and the whitespace and has the token replaced by `***`;
scanning resumes after the replaced token, mirroring the left-to-right
non-overlapping semantics of `re.sub`. -/
def maskPArgs (cs : List Char) : List Char :=
  match cs with
  | [] => []
  | c :: rest =>
    if c = '-' ∧ rest.head? = some 'P' then
      let ws := rest.tail.takeWhile isWsChar
      let afterWs := rest.tail.dropWhile isWsChar
      if ws.isEmpty || afterWs.isEmpty then
        c :: maskPArgs rest
      else
        c :: 'P' ::
          (ws ++ '*' :: '*' :: '*' :: maskPArgs (afterWs.dropWhile (fun x => !isWsChar x)))
    else
      c :: maskPArgs rest
termination_by cs.length
decreasing_by
  · simp
  · simp only [List.length_cons]
    have h1 : (rest.tail.dropWhile isWsChar).length ≤ rest.tail.length :=
      (List.dropWhile_suffix isWsChar).length_le
    have h2 : ((rest.tail.dropWhile isWsChar).dropWhile (fun x => !isWsChar x)).length ≤
        (rest.tail.dropWhile isWsChar).length :=
      (List.dropWhile_suffix _).length_le
    have h3 : rest.tail.length ≤ rest.length := by
      cases rest <;> simp
    omega
  · simp

/-- `BatchRunner._mask_sensitive_data(text)` (logic.py lines 95-112): empty
text is returned unchanged; otherwise the configured SQL password is
substring-replaced by `***` only when it is set and strictly longer than 3
characters, and then the `-P`-argument regex pass runs.  A missing password
(`None` in Python) is modelled by the empty string, which the truthiness
guard skips exactly like `None`. -/
def mask_sensitive_data (sqlPassword text : String) : String :=
  if text = "" then text
  else
    let t := if sqlPassword ≠ "" ∧ 3 < sqlPassword.length
             then pyReplace text sqlPassword "***" else text
    String.mk (maskPArgs t.data)

/-! ## SqlExecutor query construction: `BatchRunner.execute_restore`
(logic.py lines 678-711)

The f-string templates on lines 687-694 and 703-711 reproduced verbatim;
string literals avoid the quote character itself, which is spliced in as
`sqStr`. -/

/-- `.replace(single-quote, doubled-quote)` as applied on logic.py
lines 682-684 and 1044: the quote-doubling escape for SQL string
literals. -/
def sqlEscapeQuotes (s : String) : String :=
  pyReplace s sqStr (sqStr ++ sqStr)

/-- `drop_query` (logic.py lines 687-694): drops an existing database named
`target_db`.  The database name is spliced in verbatim, without
`sqlEscapeQuotes`. -/
def drop_query (target_db : String) : String :=
  "\n        IF DB_ID(N" ++ sqStr ++ target_db ++ sqStr ++ ") IS NOT NULL\n" ++
  "        BEGIN\n" ++
  "            PRINT " ++ sqStr ++ "Dropping existing [" ++ target_db ++ "]..." ++ sqStr ++ ";\n" ++
  "            ALTER DATABASE [" ++ target_db ++ "] SET SINGLE_USER WITH ROLLBACK IMMEDIATE;\n" ++
  "            DROP DATABASE [" ++ target_db ++ "];\n" ++
  "        END;\n        "

/-- `restore_query` (logic.py lines 703-711), composed with the escaping of
lines 682-684: the backup path and both physical target paths pass through
`sqlEscapeQuotes`; the database name and the two logical file names are
spliced in verbatim. -/
def restore_query (target_db backup_file logical_data target_mdf logical_log target_ldf :
    String) : String :=
  let escaped_backup := sqlEscapeQuotes backup_file
  let escaped_mdf := sqlEscapeQuotes target_mdf
  let escaped_ldf := sqlEscapeQuotes target_ldf
  "\n        PRINT " ++ sqStr ++ "RESTORE starting..." ++ sqStr ++ ";\n" ++
  "        RESTORE DATABASE [" ++ target_db ++ "]\n" ++
  "          FROM DISK = N" ++ sqStr ++ escaped_backup ++ sqStr ++ "\n" ++
  "          WITH MOVE N" ++ sqStr ++ logical_data ++ sqStr ++ " TO N" ++ sqStr ++
    escaped_mdf ++ sqStr ++ ",\n" ++
  "               MOVE N" ++ sqStr ++ logical_log ++ sqStr ++ "  TO N" ++ sqStr ++
    escaped_ldf ++ sqStr ++ ",\n" ++
  "               REPLACE, RECOVERY, STATS = 5;\n" ++
  "        PRINT " ++ sqStr ++ "RESTORE complete." ++ sqStr ++ ";\n        "

/-! ## Typed-filelist parsing: `BatchRunner.get_backup_filelist`
(logic.py lines 1041-1080)

The pure parsing of the sqlcmd stdout (lines 1056-1074); the surrounding
sqlcmd invocation is modelled in `RestoreEnv`. -/

/-- Python `str.split(sep)` for a one-character separator, on char lists:
splits on every occurrence, keeping empty fields. -/
def pySplitChar (sep : Char) : List Char → List (List Char)
  | [] => [[]]
  | c :: rest =>
    match pySplitChar sep rest with
    | [] => [[]]
    | h :: t => if c = sep then [] :: h :: t else (c :: h) :: t

/-- Python `str.split(sep)` on strings (one-character separator, as in the
`split("|")` and `split("\n")` calls of the sources). -/
def pySplitStr (s : String) (sep : Char) : List String :=
  (pySplitChar sep s.data).map String.mk

/-- One iteration of the row loop (logic.py lines 1060-1073), acting on the
accumulator `(logical_data, logical_log)`; empty string means unset, as in
the Python truthiness tests. -/
def filelistStep (acc : String × String) (line : String) : String × String :=
  if pyIn "|" line then
    let parts := pySplitStr line (Char.ofNat 124)
    if parts.length ≥ 2 then
      let logical_name := pyStrip (parts.getD 0 "")
      if parts.length ≥ 3 then
        let file_type := pyStrip (parts.getD 2 "")
        if file_type = "D" ∧ acc.1 = "" then (logical_name, acc.2)
        else if file_type = "L" ∧ acc.2 = "" then (acc.1, logical_name)
        else acc
      else acc
    else acc
  else acc

/-- The parsing part of `get_backup_filelist` (logic.py lines 1056-1074):
`stdout.strip().split("\n")` folded through the row loop starting from two
unset names. -/
def parse_filelist_stdout (stdout : String) : String × String :=
  (pySplitStr (pyStrip stdout) (Char.ofNat 10)).foldl filelistStep ("", "")

/-! ## RestorePipeline: `BatchRunner.execute_restore`
(logic.py lines 630-744)

The external world is an explicit environment: whether the backup archive
exists on disk, what the engine would report as default data/log paths and
as the logical file names inside the archive, and the exit codes of the drop
and restore sqlcmd invocations.  `sqlCalls` counts the `sqlcmd` invocations
actually issued (`get_sql_paths`, `get_backup_filelist`, drop, restore, in
that order). -/

/-- Environment of one restore run. -/
structure RestoreEnv where
  backupExists : Bool
  defaultData : String
  defaultLog : String
  logicalData : String
  logicalLog : String
  dropCode : Int
  restoreCode : Int

/-- Result of one restore run plus the number of sqlcmd invocations
issued. -/
structure RestoreOutcome where
  result : OperationResult
  sqlCalls : Nat
deriving DecidableEq

/-- Trailing-backslash normalization (logic.py lines 660-663). -/
def ensureTrailingBackslash (s : String) : String :=
  if s.endsWith "\\" then s else s ++ "\\"

/-- `BatchRunner.execute_restore` (logic.py lines 630-744).  An override
path that is `None` or empty falls back to the engine default (Python
truthiness on line 656-657). -/
def execute_restore (env : RestoreEnv) (backup_file target_db : String)
    (mdf_path ldf_path : Option String) (t0 t1 : Int) : RestoreOutcome :=
  let result := { OperationResult.create "restore" t0 with status := OperationStatus.running }
  let result := result.add_message ("Restoring " ++ target_db ++ " from " ++ backup_file)
  if !env.backupExists then
    { result := (result.add_error ("Backup file not found: " ++ backup_file)).finalize .failed t1,
      sqlCalls := 0 }
  else
    -- get_sql_paths (line 653) issues one sqlcmd invocation
    let final_mdf_dir := ensureTrailingBackslash
      (match mdf_path with
       | some p => if p = "" then env.defaultData else p
       | none => env.defaultData)
    let final_ldf_dir := ensureTrailingBackslash
      (match ldf_path with
       | some p => if p = "" then env.defaultLog else p
       | none => env.defaultLog)
    -- get_backup_filelist (line 669) issues one sqlcmd invocation
    if env.logicalData = "" ∨ env.logicalLog = "" then
      { result := (result.add_error ("Could not read logical files from backup: " ++ sqStr ++
          backup_file ++ sqStr ++ ". Verify file integrity and SQL permissions.")).finalize
          .failed t1,
        sqlCalls := 2 }
    else
      let target_mdf := final_mdf_dir ++ target_db ++ ".mdf"
      let target_ldf := final_ldf_dir ++ target_db ++ "_log.ldf"
      -- drop query (line 696) issues one sqlcmd invocation
      let result := if env.dropCode ≠ 0 then
          result.add_warning "Failed to drop existing database (may not exist)"
        else result
      -- restore query (line 714) issues one sqlcmd invocation
      if env.restoreCode = 0 then
        { result := ((result.add_message "Database restore successful").add_resource
            { type := .database, name := target_db, path := some target_mdf,
              additional_info := [("data_file", target_mdf), ("log_file", target_ldf),
                                  ("source_backup", backup_file)] }).finalize .success t1,
          sqlCalls := 4 }
      else
        { result := (result.add_error "Database restore failed").finalize .failed t1,
          sqlCalls := 4 }

/-! ## CleanupPipeline: `BatchRunner.execute_cleanup`
(logic.py lines 516-626, identical aggregation in batch_runner.py
lines 276-390)

Each external effect is an explicit per-item success flag.  The per-step
lists `service_results`, `db_results` and `folder_results` are carried
exactly as the source builds them: one entry per configured service (the
delete-step success, line 557), one per database, one per folder. -/

/-- Configured service with the outcomes of its stop and delete steps. -/
structure SvcSpec where
  name : String
  stopOk : Bool
  deleteOk : Bool
deriving DecidableEq

/-- Environment of one cleanup run. -/
structure CleanupEnv where
  services : List SvcSpec
  databases : List (String × Bool)
  folders : List (String × Bool)
  registrySuccess : Bool
  registryErrors : List String
deriving DecidableEq

/-- Service loop body (logic.py lines 528-557). -/
def cleanupServiceStep (st : OperationResult × List Bool) (svc : SvcSpec) :
    OperationResult × List Bool :=
  let r := st.1.add_resource
    { type := .service, name := svc.name,
      additional_info := [("action", "stop"), ("success", pyBool svc.stopOk)] }
  let r := if svc.stopOk then r.add_message ("Service stopped: " ++ svc.name)
           else r.add_warning ("Failed to stop service: " ++ svc.name)
  let r := r.add_resource
    { type := .service, name := svc.name,
      additional_info := [("action", "delete"), ("success", pyBool svc.deleteOk)] }
  let r := if svc.deleteOk then r.add_message ("Service deleted: " ++ svc.name)
           else r.add_error ("Failed to delete service: " ++ svc.name)
  (r, st.2 ++ [svc.deleteOk])

/-- Database loop body (logic.py lines 563-577). -/
def cleanupDbStep (st : OperationResult × List Bool) (db : String × Bool) :
    OperationResult × List Bool :=
  let r := st.1.add_resource
    { type := .database, name := db.1,
      additional_info := [("action", "drop"), ("success", pyBool db.2)] }
  let r := if db.2 then r.add_message ("Database dropped: " ++ db.1)
           else r.add_error ("Failed to drop database: " ++ db.1)
  (r, st.2 ++ [db.2])

/-- Folder loop body (logic.py lines 583-597). -/
def cleanupFolderStep (st : OperationResult × List Bool) (folder : String × Bool) :
    OperationResult × List Bool :=
  let r := st.1.add_resource
    { type := .folder, name := folder.1,
      additional_info := [("action", "delete"), ("success", pyBool folder.2)] }
  let r := if folder.2 then r.add_message ("Folder deleted: " ++ folder.1)
           else r.add_warning ("Failed to delete folder: " ++ folder.1)
  (r, st.2 ++ [folder.2])

/-- `BatchRunner.execute_cleanup` (logic.py lines 516-626). -/
def execute_cleanup (env : CleanupEnv) (t0 t1 : Int) : OperationResult :=
  let r := { OperationResult.create "cleanup" t0 with status := OperationStatus.running }
  let r := r.add_message "Cleanup operation started"
  let s1 := env.services.foldl cleanupServiceStep (r, [])
  let s2 := env.databases.foldl cleanupDbStep (s1.1, [])
  let s3 := env.folders.foldl cleanupFolderStep (s2.1, [])
  let r := s3.1.add_resource
    { type := .registry_key, name := "RMS_RegistryEntries",
      additional_info := [("action", "cleanup"), ("success", pyBool env.registrySuccess)] }
  let r := if env.registrySuccess then r.add_message "Registry cleanup completed"
           else env.registryErrors.foldl (fun acc e => acc.add_error ("Registry error: " ++ e)) r
  -- Final status determination (logic.py lines 614-626): the denominator is
  -- len(service_results) + len(db_results) + len(folder_results).
  if r.errors = [] then r.finalize .success t1
  else if r.errors.length < s1.2.length + s2.2.length + s3.2.length then
    r.finalize .partialSuccess t1
  else r.finalize .failed t1

/-- Modelled from the spec and claim wording for C3: the total number of
attempted sub-operations, counting the service steps (stop and delete, two
per configured service), the database drops, the folder deletions, and the
registry pass as one sub-operation. -/
def claimTotalAttempted (env : CleanupEnv) : Nat :=
  2 * env.services.length + env.databases.length + env.folders.length + 1

/-! ## BackupPipeline: `BatchRunner.execute_backup`
(logic.py lines 748-990)

Environment flags stand for the external effects: SQL connectivity test,
directory creation, per-database shrink/backup/verification, per-file copy,
and archive creation.  The destination-directory resolution of
lines 774-800 only selects the folder string (with log output), so the
model takes the resolved folder directly.  `archiveCreated` records whether
a verified, non-empty archive was produced (lines 940-951). -/

/-- Environment of one backup run. -/
structure BackupEnv where
  cfgDatabases : List String
  cfgAppsettings : List (String × String)
  connOk : Bool
  backupFolder : String
  mkdirOk : Bool
  tempFailMsg : String
  shrinkOk : String → Bool
  backupOk : String → Bool
  verifyOk : String → Bool
  sizeBytes : String → Nat
  clientName : String
  branchCode : String
  posNumber : String
  copyOk : String → Bool
  zipCrash : Option String
  zipOk : Bool
  timestamp : String
  newTimestamp : String

/-- Result of one backup run plus whether a verified archive was written. -/
structure BackupOutcome where
  result : OperationResult
  archiveCreated : Bool

/-- Database loop body (logic.py lines 827-863); the state is
`(result, backup_results, valid_bak_files)`. -/
def backupDbStep (env : BackupEnv) (tempDir : String)
    (st : OperationResult × List Bool × List String) (db : String) :
    OperationResult × List Bool × List String :=
  let r := if env.shrinkOk db then st.1.add_message ("    - Shrunk: " ++ db)
           else st.1.add_warning ("    - Shrink failed: " ++ db)
  let backup_path := tempDir ++ "\\" ++ db ++ "_" ++ env.timestamp ++ ".bak"
  if env.backupOk db && env.verifyOk db then
    (r.add_resource
       { type := .database, name := db, path := some backup_path,
         additional_info := [("size_bytes", toString (env.sizeBytes db))] },
     st.2.1 ++ [true], st.2.2 ++ [backup_path])
  else
    (r.add_error ("Backup failed for " ++ db), st.2.1 ++ [false], st.2.2)

/-- AppSettings loop body (logic.py lines 874-886); items whose name is not
selected are skipped; the state is `(result, appsettings_results)`. -/
def backupAppStep (sel : List String) (env : BackupEnv)
    (st : OperationResult × List Bool) (item : String × String) :
    OperationResult × List Bool :=
  if sel.contains item.1 then
    if env.copyOk item.1 then
      (st.1.add_message ("    - Copied: " ++ item.1), st.2 ++ [true])
    else
      (st.1.add_warning ("    - Failed to copy: " ++ item.1), st.2 ++ [false])
  else st

/-- `BatchRunner.execute_backup` (logic.py lines 748-990).  `none` for a
selection means the caller passed `None`, defaulted on lines 757-762. -/
def execute_backup (env : BackupEnv) (selected_dbs selected_appsettings : Option (List String))
    (t0 t1 : Int) : BackupOutcome :=
  let result := { OperationResult.create "backup" t0 with status := OperationStatus.running }
  let sel_dbs := selected_dbs.getD env.cfgDatabases
  let sel_apps := selected_appsettings.getD (env.cfgAppsettings.map Prod.fst)
  if !env.connOk then
    { result := (result.add_error "SQL Connection Failed. check credentials.").finalize
        .failed t1,
      archiveCreated := false }
  else
    let temp_dir := env.backupFolder ++ "\\Temp"
    if !env.mkdirOk then
      { result := (result.add_error ("Failed to create temp directory: " ++
          env.tempFailMsg)).finalize .failed t1,
        archiveCreated := false }
    else
      let result := result.add_message ("Backup directory: " ++ temp_dir)
      let result := if sel_dbs.isEmpty then
          result.add_warning "No databases selected for backup." else result
      let s1 := sel_dbs.foldl (backupDbStep env temp_dir) (result, [], [])
      let result := s1.1
      let backup_results := s1.2.1
      let valid_bak_files := s1.2.2
      let result := if sel_apps.isEmpty then
          result.add_warning "No AppSettings selected for backup." else result
      let s2 := env.cfgAppsettings.foldl (backupAppStep sel_apps env) (result, [])
      let result := s2.1
      let appsettings_results := s2.2
      if env.branchCode = "" then
        { result := (result.add_error
            "Invalid Configuration: Branch Code is required for backup.").finalize .failed t1,
          archiveCreated := false }
      else if env.posNumber = "" then
        { result := (result.add_error
            "Invalid Configuration: POS Number is required for backup.").finalize .failed t1,
          archiveCreated := false }
      else
        let zip_name := env.clientName ++ "_" ++ env.branchCode ++ "_POS_" ++ env.posNumber ++
          "_RmsBranchSrv_DB_Backup_" ++ env.newTimestamp ++ ".zip"
        let zip_file := env.backupFolder ++ "\\" ++ zip_name
        -- "Check if we have anything to zip" (logic.py lines 928-932): the
        -- test is on the *attempted* appsettings list, not the successful
        -- copies.
        if valid_bak_files.isEmpty && appsettings_results.isEmpty then
          { result := (result.add_error "No files successfully generated to backup.").finalize
              .failed t1,
            archiveCreated := false }
        else
          let zres : OperationResult × Bool :=
            match env.zipCrash with
            | some m => (result.add_error ("Zip creation crashed: " ++ m), false)
            | none =>
              if env.zipOk then
                (result.add_resource { type := .file, name := zip_name, path := some zip_file },
                 true)
              else
                (result.add_error "Zip file creation failed (empty or missing).", false)
          let result := zres.1
          let zip_success := zres.2
          let all_dbs_ok := if !sel_dbs.isEmpty then backup_results.all id else true
          let result :=
            if zip_success && all_dbs_ok then result.finalize .success t1
            else if zip_success then
              (result.finalize .partialSuccess t1).add_warning
                "Backup archive created but some databases failed."
            else
              (result.finalize .failed t1).add_error
                "Backup operation failed to produce an archive."
          { result := { result with context := result.context ++ [("zip_file", zip_file)] },
            archiveCreated := zip_success }

/-! ## AsyncExecutionHost: `WorkerThread.run`

Two variants exist: the active `app/ui.py` lines 221-266 and the legacy
`app/logic/worker_thread.py` lines 43-94.  A pipeline invocation is
abstracted by its outcome (a returned `OperationResult` or an escaping
exception); `_is_cancelled` is the value of the cancellation flag at the
points where `run` reads it.  The functions return the list of
`operation_complete` emissions, in order. -/

/-- Outcome of the pipeline body called by the worker. -/
inductive PipeOutcome where
  | ok (r : OperationResult)
  | raises (msg : String)

/-- The FAILED result built by the `except` branch of `app/ui.py`
lines 263-265. -/
def uiFailedResult (op m : String) (t0 t1 : Int) : OperationResult :=
  ((OperationResult.create op t0).add_error ("Worker thread error: " ++ m)).finalize .failed t1

/-- `WorkerThread.run` of the active `app/ui.py` (lines 221-266), for a
pipeline operation (Mode B): the pipeline runs regardless of the
cancellation flag, and both the normal emission (line 254) and the
exception-path emission (line 258) are guarded by `if not
self._is_cancelled`. -/
def uiWorkerRun (cancelled : Bool) (o : PipeOutcome) (op : String) (t0 t1 : Int) :
    List OperationResult :=
  match o with
  | .ok r => if cancelled then [] else [r]
  | .raises m => if cancelled then [] else [uiFailedResult op m t0 t1]

/-- The CANCELLED result built by `worker_thread.py` lines 50-53. -/
def wtCancelledResult (op : String) (t0 t1 : Int) : OperationResult :=
  ((OperationResult.create op t0).add_message "Operation cancelled before start").finalize
    .cancelled t1

/-- The FAILED result built by the `except` branch of `worker_thread.py`
lines 91-93. -/
def wtFailedResult (op m : String) (t0 t1 : Int) : OperationResult :=
  ((OperationResult.create op t0).add_error ("Unexpected error: " ++ m)).finalize .failed t1

/-- `WorkerThread.run` of the legacy `app/logic/worker_thread.py`
(lines 43-94): the flag is checked once at entry (line 49) and a CANCELLED
result is emitted; otherwise the pipeline outcome or the exception-path
FAILED result is emitted unconditionally. -/
def wtWorkerRun (cancelled : Bool) (o : PipeOutcome) (op : String) (t0 t1 : Int) :
    List OperationResult :=
  if cancelled then [wtCancelledResult op t0 t1]
  else
    match o with
    | .ok r => [r]
    | .raises m => [wtFailedResult op m t0 t1]

/-! ## Concrete inputs used by counterexamples and witnesses -/

/-- Cleanup environment: one database whose drop succeeds, registry pass
fails with one reported error. -/
def cleanupEnvRegistryFail : CleanupEnv :=
  { services := [], databases := [("RmsBranchSrv", true)], folders := [],
    registrySuccess := false, registryErrors := ["access denied"] }

/-- Cleanup environment: everything succeeds. -/
def cleanupEnvAllOk : CleanupEnv :=
  { services := [{ name := "RMS_Service", stopOk := true, deleteOk := true }],
    databases := [("RmsBranchSrv", true)], folders := [("C:\\RMS_Plus", true)],
    registrySuccess := true, registryErrors := [] }

/-- Backup environment for the C4 failing input: one configured appsettings
file whose copy fails, archive write succeeds. -/
def backupEnvCopyFail : BackupEnv :=
  { cfgDatabases := ["RmsBranchSrv"],
    cfgAppsettings := [("appsettings.json", "C:\\app\\appsettings.json")],
    connOk := true, backupFolder := "C:\\DB Backups", mkdirOk := true, tempFailMsg := "",
    shrinkOk := fun _ => true, backupOk := fun _ => true, verifyOk := fun _ => true,
    sizeBytes := fun _ => 0, clientName := "UPC", branchCode := "1023", posNumber := "01",
    copyOk := fun _ => false, zipCrash := none, zipOk := true,
    timestamp := "28-01-2026_02-35-12-PM", newTimestamp := "2026-01-28_14-35-12" }

/-- Restore environment whose backup archive is missing on disk. -/
def restoreEnvNoFile : RestoreEnv :=
  { backupExists := false, defaultData := "C:\\Data\\", defaultLog := "C:\\Log\\",
    logicalData := "RmsBranchSrv", logicalLog := "RmsBranchSrv_log",
    dropCode := 0, restoreCode := 0 }

/-- A database name containing a single quote, for the C7 counterexample. -/
def quotedDbName : String := "a" ++ sqStr ++ "b"

/-! ## Basic lemmas about the result state machine -/

theorem finalize_status (r : OperationResult) (st : OperationStatus) (t : Int) :
    (r.finalize st t).status = st := by
  simp only [OperationResult.finalize]
  split <;> [rfl; split <;> rfl]

theorem finalize_errors (r : OperationResult) (st : OperationStatus) (t : Int) :
    (r.finalize st t).errors = r.errors := by
  simp only [OperationResult.finalize]
  split <;> [rfl; split <;> rfl]

theorem finalize_start (r : OperationResult) (st : OperationStatus) (t : Int) :
    (r.finalize st t).start_time = r.start_time := by
  simp only [OperationResult.finalize]
  split <;> [rfl; split <;> rfl]

theorem finalize_end (r : OperationResult) (st : OperationStatus) (t : Int) :
    (r.finalize st t).end_time = some t := by
  simp only [OperationResult.finalize]
  split <;> [rfl; split <;> rfl]

theorem finalize_duration (r : OperationResult) (st : OperationStatus) (t : Int) :
    (r.finalize st t).duration_seconds = some (t - r.start_time) := by
  simp only [OperationResult.finalize]
  split <;> [rfl; split <;> rfl]

theorem is_complete_iff (r : OperationResult) :
    r.is_complete = true ↔ isTerminal r.status := by
  cases h : r.status <;>
    simp [OperationResult.is_complete, isTerminal, h]

theorem applyCall_start (r : OperationResult) (c : MutCall) :
    (applyCall r c).start_time = r.start_time := by
  cases c <;> rfl

theorem applyCalls_start (ops : List MutCall) (r : OperationResult) :
    (applyCalls r ops).start_time = r.start_time := by
  induction ops generalizing r with
  | nil => rfl
  | cons c cs ih =>
    simp only [applyCalls, List.foldl_cons] at *
    rw [ih, applyCall_start]

/-! ## Claim C1 -/

/-- Claim C1 as stated is false: an `OperationResult` that has recorded an
error via `add_error` can still be finalized with status SUCCESS — the
engine does not enforce the error-implies-not-SUCCESS invariant.  Concrete
input: a fresh cleanup result with one recorded error, finalized with
SUCCESS, ends up with status SUCCESS. -/
theorem c1_success_despite_error :
    ((OperationResult.create "cleanup" 0).add_error
      "Failed to delete service: X").errors.length = 1 ∧
    ((((OperationResult.create "cleanup" 0).add_error
      "Failed to delete service: X").finalize OperationStatus.success 1).status =
      OperationStatus.success) := by
  decide

/-- Claim C1 (amended): `add_error` clears the `success` flag at the time of
the call and leaves the error recorded, but `finalize` does not consult the
recorded errors — it stores exactly the status passed by the caller, so
`finalize(SUCCESS)` after `add_error` yields status SUCCESS and the
invariant is left to caller discipline. -/
theorem c1_add_error_then_finalize (r : OperationResult) (e : String)
    (st : OperationStatus) (t : Int) :
    ((r.add_error e).finalize st t).status = st ∧
    (r.add_error e).success = false ∧
    (r.add_error e).errors ≠ [] := by
  refine ⟨finalize_status _ _ _, rfl, ?_⟩
  simp [OperationResult.add_error]

/-! ## Claim C2 -/

/-- Claim C2: for every `OperationResult`, every sequence of
`add_message`/`add_warning`/`add_error` calls, and every finalization with
one of the terminal statuses (the only statuses any call site of `finalize`
in the repository passes), under a monotone clock (`end` reading ≥ `start`
reading) the finalized result has `end_time ≥ start_time`,
`duration_seconds = end_time − start_time`, a terminal status, and
`is_complete()` true. -/
theorem c2_finalize_complete (r0 : OperationResult) (ops : List MutCall)
    (st : OperationStatus) (t1 : Int) (hle : r0.start_time ≤ t1) (hst : isTerminal st) :
    let r := (applyCalls r0 ops).finalize st t1
    r.end_time = some t1 ∧ r.start_time = r0.start_time ∧ r0.start_time ≤ t1 ∧
    r.duration_seconds = some (t1 - r0.start_time) ∧ isTerminal r.status ∧
    r.is_complete = true := by
  intro r
  have hstart : (applyCalls r0 ops).start_time = r0.start_time := applyCalls_start ops r0
  refine ⟨finalize_end _ _ _, ?_, hle, ?_, ?_, ?_⟩
  · rw [show r = (applyCalls r0 ops).finalize st t1 from rfl, finalize_start, hstart]
  · rw [show r = (applyCalls r0 ops).finalize st t1 from rfl, finalize_duration, hstart]
  · rw [show r = (applyCalls r0 ops).finalize st t1 from rfl, finalize_status]; exact hst
  · rw [is_complete_iff, show r = (applyCalls r0 ops).finalize st t1 from rfl, finalize_status]
    exact hst

/-- The mutation sequence used by the C2 witness. -/
def c2ops : List MutCall :=
  [.msg "Cleanup operation started", .warn "Failed to stop service: X",
   .err "Failed to drop database: X"]

/-- Witness for C2 at a concrete input. -/
theorem c2_finalize_complete_witness :
    (OperationResult.create "cleanup" 0).start_time ≤ 5 ∧ isTerminal OperationStatus.failed ∧
    (let r := (applyCalls (OperationResult.create "cleanup" 0) c2ops).finalize
        OperationStatus.failed 5
     r.end_time = some 5 ∧ r.start_time = (OperationResult.create "cleanup" 0).start_time ∧
     (OperationResult.create "cleanup" 0).start_time ≤ 5 ∧
     r.duration_seconds = some (5 - (OperationResult.create "cleanup" 0).start_time) ∧
     isTerminal r.status ∧ r.is_complete = true) :=
  ⟨by decide, by decide,
   c2_finalize_complete (OperationResult.create "cleanup" 0) c2ops OperationStatus.failed 5
     (by decide) (by decide)⟩

/-! ## Claim C3 -/

theorem foldl_snd_len {α : Type} (f : (OperationResult × List Bool) → α →
    (OperationResult × List Bool)) (hf : ∀ st x, ((f st x).2).length = st.2.length + 1) :
    ∀ (l : List α) (st : OperationResult × List Bool),
      (((l.foldl f st).2)).length = st.2.length + l.length := by
  intro l
  induction l with
  | nil => intro st; simp
  | cons x xs ih =>
    intro st
    rw [List.foldl_cons, ih, hf, List.length_cons]
    omega

theorem svcStep_len (st : OperationResult × List Bool) (x : SvcSpec) :
    ((cleanupServiceStep st x).2).length = st.2.length + 1 := by
  simp [cleanupServiceStep]

theorem dbStep_len (st : OperationResult × List Bool) (x : String × Bool) :
    ((cleanupDbStep st x).2).length = st.2.length + 1 := by
  simp [cleanupDbStep]

theorem folderStep_len (st : OperationResult × List Bool) (x : String × Bool) :
    ((cleanupFolderStep st x).2).length = st.2.length + 1 := by
  simp [cleanupFolderStep]

/-- Claim C3 (amended): cleanup finalizes SUCCESS when zero errors were
recorded; PARTIAL_SUCCESS when the error count is positive but less than
the number of configured services plus databases plus folders; otherwise
FAILED.  The denominator counts one entry per configured service (the
delete step only) and does not count the registry pass. -/
theorem c3_cleanup_aggregation (env : CleanupEnv) (t0 t1 : Int) :
    ((execute_cleanup env t0 t1).errors = [] →
      (execute_cleanup env t0 t1).status = OperationStatus.success) ∧
    ((execute_cleanup env t0 t1).errors ≠ [] →
      (execute_cleanup env t0 t1).errors.length <
        env.services.length + env.databases.length + env.folders.length →
      (execute_cleanup env t0 t1).status = OperationStatus.partialSuccess) ∧
    ((execute_cleanup env t0 t1).errors ≠ [] →
      ¬ (execute_cleanup env t0 t1).errors.length <
        env.services.length + env.databases.length + env.folders.length →
      (execute_cleanup env t0 t1).status = OperationStatus.failed) := by
  simp only [execute_cleanup]
  rw [foldl_snd_len cleanupServiceStep svcStep_len, foldl_snd_len cleanupDbStep dbStep_len,
      foldl_snd_len cleanupFolderStep folderStep_len]
  simp only [List.length_nil, Nat.zero_add]
  split_ifs with h1 h2 <;>
    simp_all [finalize_errors, finalize_status]

/-- Witness for the C3 amended claim: an all-success cleanup run has no
errors and finalizes SUCCESS. -/
theorem c3_cleanup_aggregation_witness :
    (execute_cleanup cleanupEnvAllOk 0 1).errors = [] ∧
    (execute_cleanup cleanupEnvAllOk 0 1).status = OperationStatus.success :=
  ⟨by decide, (c3_cleanup_aggregation cleanupEnvAllOk 0 1).1 (by decide)⟩

/-- Claim C3 as stated is false on the code: with no services or folders,
one database drop that succeeds, and a registry pass that fails with one
reported error, the error count (1) is positive and strictly below the
claimed total of attempted sub-operations (1 database drop + 1 registry
pass = 2), so the claim demands PARTIAL_SUCCESS; the code divides by
services + databases + folders = 1 only, and finalizes FAILED. -/
theorem c3_registry_excluded_from_denominator :
    0 < (execute_cleanup cleanupEnvRegistryFail 0 1).errors.length ∧
    (execute_cleanup cleanupEnvRegistryFail 0 1).errors.length <
      claimTotalAttempted cleanupEnvRegistryFail ∧
    (execute_cleanup cleanupEnvRegistryFail 0 1).status ≠ OperationStatus.partialSuccess ∧
    (execute_cleanup cleanupEnvRegistryFail 0 1).status = OperationStatus.failed := by
  decide

/-! ## Claim C4 -/

theorem appFold_nil_sel (env : BackupEnv) (items : List (String × String))
    (st : OperationResult × List Bool) :
    items.foldl (backupAppStep [] env) st = st := by
  induction items generalizing st with
  | nil => rfl
  | cons x xs ih =>
    rw [List.foldl_cons]
    have hx : backupAppStep [] env st x = st := by
      simp [backupAppStep]
    rw [hx, ih]

/-- Claim C4: the particular instance holds — backup invoked with
`selected_dbs=[]` and `selected_appsettings=[]` always finalizes FAILED and
creates no archive (first conjunct, for every environment).  The general
sentence is false on the code: with `selected_dbs=[]` and one selected
appsettings file whose copy fails, no backup file and no copied file
exists, yet the run reaches archive creation (the guard on logic.py
line 929 tests the list of *attempted* copies, which holds a `False`
entry), zips the empty temp directory, and — the archive file existing and
being non-empty — finalizes SUCCESS with an archive created (second
conjunct, evaluating that failing input). -/
theorem c4_backup_no_content :
    (∀ (env : BackupEnv) (t0 t1 : Int),
      (execute_backup env (some []) (some []) t0 t1).result.status = OperationStatus.failed ∧
      (execute_backup env (some []) (some []) t0 t1).archiveCreated = false) ∧
    ((execute_backup backupEnvCopyFail (some []) (some ["appsettings.json"]) 0
        1).result.status = OperationStatus.success ∧
     (execute_backup backupEnvCopyFail (some []) (some ["appsettings.json"]) 0
        1).archiveCreated = true) := by
  constructor
  · intro env t0 t1
    simp only [execute_backup, Option.getD_some, List.foldl_nil]
    rw [appFold_nil_sel]
    by_cases hc : (!env.connOk) = true
    · rw [if_pos hc]; exact ⟨finalize_status _ _ _, rfl⟩
    · rw [if_neg hc]
      by_cases hm : (!env.mkdirOk) = true
      · rw [if_pos hm]; exact ⟨finalize_status _ _ _, rfl⟩
      · rw [if_neg hm]
        by_cases hb : env.branchCode = ""
        · rw [if_pos hb]; exact ⟨finalize_status _ _ _, rfl⟩
        · rw [if_neg hb]
          by_cases hp : env.posNumber = ""
          · rw [if_pos hp]; exact ⟨finalize_status _ _ _, rfl⟩
          · rw [if_neg hp]
            exact ⟨finalize_status _ _ _, rfl⟩
  · exact ⟨by decide, by decide⟩

/-! ## Claim C5 -/

/-- Claim C5: parsing the pipe-delimited, headerless filelist output
`"dataname|x|D\nlogname|y|L\n"` yields logical data name `dataname` and
logical log name `logname`; for every accumulator state and row, a type-D
row encountered after the data name is set is ignored (first occurrence
wins, second conjunct), likewise for type-L rows (third conjunct), and a
row with fewer than 3 pipe-delimited fields leaves the state unchanged —
skipped without error (fourth conjunct). -/
theorem c5_filelist_parsing :
    parse_filelist_stdout "dataname|x|D\nlogname|y|L\n" = ("dataname", "logname") ∧
    (∀ (acc : String × String) (line : String), acc.1 ≠ "" →
      (filelistStep acc line).1 = acc.1) ∧
    (∀ (acc : String × String) (line : String), acc.2 ≠ "" →
      (filelistStep acc line).2 = acc.2) ∧
    (∀ (acc : String × String) (line : String),
      (pySplitStr line (Char.ofNat 124)).length < 3 →
      filelistStep acc line = acc) := by
  refine ⟨by decide, ?_, ?_, ?_⟩
  · intro acc line h
    simp only [filelistStep]
    split_ifs <;> simp_all
  · intro acc line h
    simp only [filelistStep]
    split_ifs <;> simp_all
  · intro acc line h
    simp only [filelistStep]
    split_ifs <;> simp_all <;> omega

/-- Witness for C5 at a concrete input: with the data name already set, a
second type-D row is ignored. -/
theorem c5_filelist_parsing_witness :
    (("dataname", "") : String × String).1 ≠ "" ∧
    (filelistStep ("dataname", "") "other|z|D").1 = (("dataname", "") : String × String).1 :=
  ⟨by decide, c5_filelist_parsing.2.1 ("dataname", "") "other|z|D" (by decide)⟩

/-! ## Claim C6 -/

/-- Claim C6: a restore invocation whose backup-archive path does not exist
on disk finalizes FAILED with exactly one recorded error and issues zero
sqlcmd invocations. -/
theorem c6_restore_missing_backup (env : RestoreEnv) (backup_file target_db : String)
    (mdf ldf : Option String) (t0 t1 : Int) (h : env.backupExists = false) :
    (execute_restore env backup_file target_db mdf ldf t0 t1).result.status =
      OperationStatus.failed ∧
    (execute_restore env backup_file target_db mdf ldf t0 t1).result.errors.length = 1 ∧
    (execute_restore env backup_file target_db mdf ldf t0 t1).sqlCalls = 0 := by
  have hcond : (!env.backupExists) = true := by simp [h]
  simp only [execute_restore]
  rw [if_pos hcond]
  refine ⟨finalize_status _ _ _, ?_, rfl⟩
  rw [finalize_errors]
  simp [OperationResult.add_error, OperationResult.add_message, OperationResult.create]

/-- Witness for C6 at a concrete input. -/
theorem c6_restore_missing_backup_witness :
    restoreEnvNoFile.backupExists = false ∧
    ((execute_restore restoreEnvNoFile "C:\\missing.zip" "RmsBranchSrv" none none
        0 1).result.status = OperationStatus.failed ∧
     (execute_restore restoreEnvNoFile "C:\\missing.zip" "RmsBranchSrv" none none
        0 1).result.errors.length = 1 ∧
     (execute_restore restoreEnvNoFile "C:\\missing.zip" "RmsBranchSrv" none none
        0 1).sqlCalls = 0) :=
  ⟨rfl, c6_restore_missing_backup restoreEnvNoFile "C:\\missing.zip" "RmsBranchSrv" none none
    0 1 rfl⟩

/-! ## Claim C7 -/

theorem listStartsWith_append (s t : List Char) : listStartsWith (s ++ t) s = true := by
  induction s with
  | nil => simp [listStartsWith]
  | cons c cs ih => simp [listStartsWith, ih]

theorem containsSub_append_left (s t n : List Char) (h : containsSub t n = true) :
    containsSub (s ++ t) n = true := by
  induction s with
  | nil => simpa using h
  | cons c cs ih => simp [containsSub, ih]

theorem containsSub_of_startsWith (s n : List Char) (h : listStartsWith s n = true) :
    containsSub s n = true := by
  cases s with
  | nil =>
    cases n with
    | nil => rfl
    | cons d ds => simp [listStartsWith] at h
  | cons c cs => simp [containsSub, h]

theorem pyIn_middle (pre e suf : String) : pyIn e (pre ++ (e ++ suf)) = true := by
  unfold pyIn
  rw [String.data_append, String.data_append]
  exact containsSub_append_left _ _ _
    (containsSub_of_startsWith _ _ (listStartsWith_append _ _))

theorem count_replaceList_sq (l : List Char) :
    (replaceList l [sqChar] [sqChar, sqChar]).count sqChar = 2 * l.count sqChar := by
  induction l with
  | nil => simp [replaceList]
  | cons c rest ih =>
    rw [replaceList]
    by_cases hc : c = sqChar
    · rw [dif_pos ⟨List.cons_ne_nil _ _, by simp [listStartsWith, hc]⟩]
      simp [List.count_append, List.count_cons, hc, ih]
      omega
    · rw [dif_neg (by simp [listStartsWith, hc])]
      simp [List.count_cons, hc, ih]

theorem countQuotes_escape (s : String) :
    countQuotes (sqlEscapeQuotes s) = 2 * countQuotes s := by
  unfold countQuotes sqlEscapeQuotes pyReplace
  exact count_replaceList_sq s.data

/-- Claim C7 (amended): the quote-doubling escape doubles every single
quote it sees (first conjunct), and the backup-archive path and both
composed physical paths are embedded into the restore query in escaped form
(remaining conjuncts); the database name and the logical file names,
however, are embedded into the drop and restore queries without escaping
(see the counterexample). -/
theorem c7_escaping_applied_to_paths :
    (∀ s : String, countQuotes (sqlEscapeQuotes s) = 2 * countQuotes s) ∧
    (∀ tdb bak logd mdf logl ldf : String,
      pyIn (sqlEscapeQuotes bak) (restore_query tdb bak logd mdf logl ldf) = true ∧
      pyIn (sqlEscapeQuotes mdf) (restore_query tdb bak logd mdf logl ldf) = true ∧
      pyIn (sqlEscapeQuotes ldf) (restore_query tdb bak logd mdf logl ldf) = true) := by
  refine ⟨countQuotes_escape, ?_⟩
  intro tdb bak logd mdf logl ldf
  refine ⟨?_, ?_, ?_⟩
  · have hb : restore_query tdb bak logd mdf logl ldf =
        ("\n        PRINT " ++ sqStr ++ "RESTORE starting..." ++ sqStr ++ ";\n" ++
         "        RESTORE DATABASE [" ++ tdb ++ "]\n" ++ "          FROM DISK = N" ++ sqStr) ++
        (sqlEscapeQuotes bak ++
         (sqStr ++ "\n" ++ "          WITH MOVE N" ++ sqStr ++ logd ++ sqStr ++ " TO N" ++
          sqStr ++ sqlEscapeQuotes mdf ++ sqStr ++ ",\n" ++ "               MOVE N" ++ sqStr ++
          logl ++ sqStr ++ "  TO N" ++ sqStr ++ sqlEscapeQuotes ldf ++ sqStr ++ ",\n" ++
          "               REPLACE, RECOVERY, STATS = 5;\n" ++ "        PRINT " ++ sqStr ++
          "RESTORE complete." ++ sqStr ++ ";\n        ")) := by
      simp only [restore_query, String.append_assoc]
    rw [hb]
    exact pyIn_middle _ _ _
  · have hm : restore_query tdb bak logd mdf logl ldf =
        ("\n        PRINT " ++ sqStr ++ "RESTORE starting..." ++ sqStr ++ ";\n" ++
         "        RESTORE DATABASE [" ++ tdb ++ "]\n" ++ "          FROM DISK = N" ++ sqStr ++
         sqlEscapeQuotes bak ++ sqStr ++ "\n" ++ "          WITH MOVE N" ++ sqStr ++ logd ++
         sqStr ++ " TO N" ++ sqStr) ++
        (sqlEscapeQuotes mdf ++
         (sqStr ++ ",\n" ++ "               MOVE N" ++ sqStr ++ logl ++ sqStr ++ "  TO N" ++
          sqStr ++ sqlEscapeQuotes ldf ++ sqStr ++ ",\n" ++
          "               REPLACE, RECOVERY, STATS = 5;\n" ++ "        PRINT " ++ sqStr ++
          "RESTORE complete." ++ sqStr ++ ";\n        ")) := by
      simp only [restore_query, String.append_assoc]
    rw [hm]
    exact pyIn_middle _ _ _
  · have hl : restore_query tdb bak logd mdf logl ldf =
        ("\n        PRINT " ++ sqStr ++ "RESTORE starting..." ++ sqStr ++ ";\n" ++
         "        RESTORE DATABASE [" ++ tdb ++ "]\n" ++ "          FROM DISK = N" ++ sqStr ++
         sqlEscapeQuotes bak ++ sqStr ++ "\n" ++ "          WITH MOVE N" ++ sqStr ++ logd ++
         sqStr ++ " TO N" ++ sqStr ++ sqlEscapeQuotes mdf ++ sqStr ++ ",\n" ++
         "               MOVE N" ++ sqStr ++ logl ++ sqStr ++ "  TO N" ++ sqStr) ++
        (sqlEscapeQuotes ldf ++
         (sqStr ++ ",\n" ++ "               REPLACE, RECOVERY, STATS = 5;\n" ++
          "        PRINT " ++ sqStr ++ "RESTORE complete." ++ sqStr ++ ";\n        ")) := by
      simp only [restore_query, String.append_assoc]
    rw [hl]
    exact pyIn_middle _ _ _

/-- Claim C7 as stated is false on the code: the database name is embedded
into the generated drop query verbatim — for the concrete name
a-quote-b (one single quote), the raw name occurs in the query text while its
quote-doubled form does not occur at all, so the name is not embedded with
the quote doubled. -/
theorem c7_dbname_not_escaped :
    pyIn quotedDbName (drop_query quotedDbName) = true ∧
    pyIn (sqlEscapeQuotes quotedDbName) (drop_query quotedDbName) = false := by
  have he : sqlEscapeQuotes quotedDbName = "a" ++ sqStr ++ sqStr ++ "b" := by
    simp [sqlEscapeQuotes, pyReplace, replaceList, quotedDbName, sqStr, sqChar, listStartsWith,
      String.singleton]
    decide
  refine ⟨by decide, ?_⟩
  rw [he]
  decide

/-! ## Claim C8 -/

theorem timeoutMsg_ne (t : Nat) (d : String) : timeoutMsg t d ≠ "" := by
  intro h
  have h2 := congrArg String.data h
  simp only [timeoutMsg, String.data_append] at h2
  simp only [List.cons_append] at h2
  exact List.cons_ne_nil _ _ h2

theorem spawnFailMsg_ne (e : String) : spawnFailMsg e ≠ "" := by
  intro h
  have h2 := congrArg String.data h
  simp only [spawnFailMsg, String.data_append] at h2
  simp only [List.cons_append] at h2
  exact List.cons_ne_nil _ _ h2

/-- Claim C8: the command executor is total (it never raises — every
outcome of the spawned process maps to a returned triple): on timeout it
returns exit code 1, empty stdout and the nonempty descriptive timeout
message in stderr; on a spawn failure or any other exception it returns
exit code 1, empty stdout and the nonempty descriptive failure message; a
true exit code, stdout and stderr of a normally completed command are returned
unchanged. -/
theorem c8_run_command_never_raises (t : Nat) (detail exc : String) (code : Int)
    (out err : String) :
    run_command (.timedOut detail) t = (1, "", timeoutMsg t detail) ∧
    (1 : Int) ≠ 0 ∧ timeoutMsg t detail ≠ "" ∧
    run_command (.spawnFailed exc) t = (1, "", spawnFailMsg exc) ∧
    spawnFailMsg exc ≠ "" ∧
    run_command (.completed code out err) t = (code, out, err) :=
  ⟨rfl, by decide, timeoutMsg_ne t detail, rfl, spawnFailMsg_ne exc, rfl⟩

/-! ## Claim C9 -/

/-- Claim C9 as stated is false on the active `app/ui.py` worker: when the
cancellation flag is set, a pipeline invocation that returns normally emits
no terminal result at all (zero emissions, not exactly one). -/
theorem c9_cancelled_emits_nothing :
    (uiWorkerRun true (.ok (OperationResult.create "cleanup" 0)) "cleanup" 0 1).length = 0 :=
  rfl

/-- Claim C9 (amended): in the active `app/ui.py` worker, an exception
escaping the pipeline body never propagates; when cancellation has not been
requested it is converted into exactly one emitted FAILED (terminal)
OperationResult, and a normal pipeline result is emitted exactly once — but
when cancellation has been requested, nothing is emitted (zero results).
The legacy `worker_thread.py` variant emits exactly one terminal result in
every case (a CANCELLED result when the flag is set at entry, the pipeline
result or a FAILED conversion otherwise). -/
theorem c9_worker_emissions (op m : String) (t0 t1 : Int) (r : OperationResult)
    (c : Bool) (o : PipeOutcome) :
    uiWorkerRun true o op t0 t1 = [] ∧
    uiWorkerRun false (.ok r) op t0 t1 = [r] ∧
    uiWorkerRun false (.raises m) op t0 t1 = [uiFailedResult op m t0 t1] ∧
    (uiFailedResult op m t0 t1).status = OperationStatus.failed ∧
    (uiFailedResult op m t0 t1).is_complete = true ∧
    (wtWorkerRun c o op t0 t1).length = 1 ∧
    wtWorkerRun false (.raises m) op t0 t1 = [wtFailedResult op m t0 t1] ∧
    (wtFailedResult op m t0 t1).status = OperationStatus.failed ∧
    (wtFailedResult op m t0 t1).is_complete = true ∧
    wtWorkerRun true o op t0 t1 = [wtCancelledResult op t0 t1] ∧
    (wtCancelledResult op t0 t1).status = OperationStatus.cancelled := by
  refine ⟨by cases o <;> rfl, rfl, rfl, finalize_status _ _ _, ?_, by cases c <;> cases o <;> rfl,
    rfl, finalize_status _ _ _, ?_, by cases o <;> rfl, finalize_status _ _ _⟩
  · rw [is_complete_iff]
    unfold uiFailedResult
    rw [finalize_status]
    exact Or.inr (Or.inr (Or.inl rfl))
  · rw [is_complete_iff]
    unfold wtFailedResult
    rw [finalize_status]
    exact Or.inr (Or.inr (Or.inl rfl))

/-! ## Claim C10 -/

theorem maskP_no_dashP (cs : List Char) (h : containsSub cs ['-', 'P'] = false) :
    maskPArgs cs = cs := by
  induction cs with
  | nil => simp [maskPArgs]
  | cons c rest ih =>
    simp only [containsSub, Bool.or_eq_false_iff] at h
    have hP : ¬(c = '-' ∧ rest.head? = some 'P') := by
      rintro ⟨hc, hh⟩
      subst hc
      cases rest with
      | nil => simp at hh
      | cons d ds =>
        simp only [List.head?_cons, Option.some.injEq] at hh
        subst hh
        simp [listStartsWith] at h
    simp only [maskPArgs]
    rw [if_neg hP, ih h.2]

theorem mask_short (p text : String) (hp : p.length ≤ 3) :
    mask_sensitive_data p text = String.mk (maskPArgs text.data) := by
  unfold mask_sensitive_data
  split_ifs with h1 h2
  · subst h1
    simp [maskPArgs]
  · exact absurd h2.2 (by omega)
  · rfl

theorem mask_short_no_flag (p text : String) (hp : p.length ≤ 3)
    (hflag : pyIn "-P" text = false) : mask_sensitive_data p text = text := by
  rw [mask_short p text hp, maskP_no_dashP text.data (by simpa [pyIn] using hflag)]

theorem maskP_flag_token (tok : String) (h1 : tok ≠ "")
    (h2 : ∀ c ∈ tok.data, isWsChar c = false) :
    String.mk (maskPArgs (("-P " ++ tok).data)) = "-P ***" := by
  have hdata : ("-P " ++ tok).data = '-' :: 'P' :: ' ' :: tok.data := rfl
  rw [hdata]
  obtain ⟨t, ts, htok⟩ : ∃ t ts, tok.data = t :: ts := by
    cases htd : tok.data with
    | nil =>
      exact absurd (by cases tok; simp_all) h1
    | cons t ts => exact ⟨t, ts, rfl⟩
  have hth : isWsChar t = false := h2 t (by rw [htok]; exact List.mem_cons_self t ts)
  have hdropNeg : tok.data.dropWhile (fun x => !isWsChar x) = [] :=
    List.dropWhile_eq_nil_iff.mpr (fun x hx => by simp [h2 x hx])
  simp only [maskPArgs]
  rw [if_pos (by simp)]
  simp only [List.tail_cons, htok]
  rw [List.takeWhile_cons_of_pos (by decide), List.takeWhile_cons_of_neg (by simp [hth]),
      List.dropWhile_cons_of_pos (by decide), List.dropWhile_cons_of_neg (by simp [hth])]
  simp only [List.isEmpty_cons, List.isEmpty_nil]
  rw [if_neg (by simp)]
  rw [← htok, hdropNeg]
  simp [maskPArgs]

/-- Claim C10: the redaction helper substring-replaces the configured SQL
password only when its length is strictly greater than 3 — for a password
of 3 or fewer characters only the `-P`-argument regex pass runs (first
conjunct), so such a password is left unredacted anywhere in text that
contains no `-P` flag (second conjunct), yet when it appears as the token
immediately following a `-P` flag it is masked to `***` all the same
(third conjunct); a password longer than 3 characters is substring-replaced
(fourth conjunct, concrete instance). -/
theorem c10_masking :
    (∀ p text : String, p.length ≤ 3 →
      mask_sensitive_data p text = String.mk (maskPArgs text.data)) ∧
    (∀ p text : String, p.length ≤ 3 → pyIn "-P" text = false →
      mask_sensitive_data p text = text) ∧
    (∀ p : String, p.length ≤ 3 → p ≠ "" → (∀ c ∈ p.data, isWsChar c = false) →
      mask_sensitive_data p ("-P " ++ p) = "-P ***") ∧
    mask_sensitive_data "abcd" "key abcd" = "key ***" := by
  refine ⟨mask_short, mask_short_no_flag, ?_, ?_⟩
  · intro p hlen hne hns
    rw [mask_short p ("-P " ++ p) hlen, maskP_flag_token p hne hns]
  · have hrep : pyReplace "key abcd" "abcd" "***" = "key ***" := by
      simp [pyReplace, replaceList, listStartsWith]
    have hnoflag : containsSub ("key ***").data ['-', 'P'] = false := by decide
    unfold mask_sensitive_data
    rw [if_neg (by decide), if_pos (by constructor <;> decide), hrep]
    show ({ data := maskPArgs ("key ***").data } : String) = "key ***"
    rw [maskP_no_dashP _ hnoflag]

/-- Witness for C10 at a concrete input: the 2-character password `ab` is
short enough to skip substring replacement, yet as the token following
`-P` it is masked. -/
theorem c10_masking_witness :
    ("ab" : String).length ≤ 3 ∧ ("ab" : String) ≠ "" ∧
    (∀ c ∈ ("ab" : String).data, isWsChar c = false) ∧
    mask_sensitive_data "ab" ("-P " ++ "ab") = "-P ***" :=
  ⟨by decide, by decide, by decide,
   c10_masking.2.2.1 "ab" (by decide) (by decide) (by decide)⟩

/-! ## Additional witnesses instantiating the claim theorems at concrete
inputs -/

/-- Witness for C1 (amended) at a concrete input. -/
theorem c1_add_error_then_finalize_witness :
    (((OperationResult.create "restore" 0).add_error "E").finalize OperationStatus.failed
      2).status = OperationStatus.failed ∧
    ((OperationResult.create "restore" 0).add_error "E").success = false ∧
    ((OperationResult.create "restore" 0).add_error "E").errors ≠ [] :=
  c1_add_error_then_finalize (OperationResult.create "restore" 0) "E" OperationStatus.failed 2

/-- Witness for C4 at a concrete input: the empty/empty selection fails and
creates no archive even in an otherwise fully healthy environment. -/
theorem c4_backup_no_content_witness :
    (execute_backup backupEnvCopyFail (some []) (some []) 0 1).result.status =
      OperationStatus.failed ∧
    (execute_backup backupEnvCopyFail (some []) (some []) 0 1).archiveCreated = false :=
  c4_backup_no_content.1 backupEnvCopyFail 0 1

/-- Witness for C7 (amended) at concrete inputs. -/
theorem c7_escaping_applied_to_paths_witness :
    pyIn (sqlEscapeQuotes "C:\\b.bak") (restore_query "Db" "C:\\b.bak" "ld" "C:\\m.mdf"
      "ll" "C:\\l.ldf") = true ∧
    pyIn (sqlEscapeQuotes "C:\\m.mdf") (restore_query "Db" "C:\\b.bak" "ld" "C:\\m.mdf"
      "ll" "C:\\l.ldf") = true ∧
    pyIn (sqlEscapeQuotes "C:\\l.ldf") (restore_query "Db" "C:\\b.bak" "ld" "C:\\m.mdf"
      "ll" "C:\\l.ldf") = true :=
  c7_escaping_applied_to_paths.2 "Db" "C:\\b.bak" "ld" "C:\\m.mdf" "ll" "C:\\l.ldf"

/-- Witness for C8 at concrete inputs. -/
theorem c8_run_command_never_raises_witness :
    run_command (.timedOut "cmd") 300 = (1, "", timeoutMsg 300 "cmd") ∧
    (1 : Int) ≠ 0 ∧ timeoutMsg 300 "cmd" ≠ "" ∧
    run_command (.spawnFailed "not found") 300 = (1, "", spawnFailMsg "not found") ∧
    spawnFailMsg "not found" ≠ "" ∧
    run_command (.completed 0 "ok" "") 300 = (0, "ok", "") :=
  c8_run_command_never_raises 300 "cmd" "not found" 0 "ok" ""

/-- Witness for C9 (amended) at concrete inputs. -/
theorem c9_worker_emissions_witness :
    uiWorkerRun true (.raises "boom") "backup" 0 1 = [] ∧
    uiWorkerRun false (.ok (OperationResult.create "backup" 0)) "backup" 0 1 =
      [OperationResult.create "backup" 0] ∧
    uiWorkerRun false (.raises "boom") "backup" 0 1 = [uiFailedResult "backup" "boom" 0 1] ∧
    (uiFailedResult "backup" "boom" 0 1).status = OperationStatus.failed ∧
    (uiFailedResult "backup" "boom" 0 1).is_complete = true ∧
    (wtWorkerRun true (.raises "boom") "backup" 0 1).length = 1 ∧
    wtWorkerRun false (.raises "boom") "backup" 0 1 = [wtFailedResult "backup" "boom" 0 1] ∧
    (wtFailedResult "backup" "boom" 0 1).status = OperationStatus.failed ∧
    (wtFailedResult "backup" "boom" 0 1).is_complete = true ∧
    wtWorkerRun true (.raises "boom") "backup" 0 1 = [wtCancelledResult "backup" 0 1] ∧
    (wtCancelledResult "backup" 0 1).status = OperationStatus.cancelled :=
  c9_worker_emissions "backup" "boom" 0 1 (OperationResult.create "backup" 0) true
    (.raises "boom")
